import Mathlib

/-!
A verification development for the NetOpsForge pack-execution pipeline.

The Python sources under `netopsforge/core/` (validator.py, parser.py,
pack_loader.py, cmdb.py, runner.py, connection.py) are shallowly embedded
below.  Pure functions become Lean functions; Python exceptions become
`Except`; Python `None` becomes either `Option.none` or the dedicated
`PyVal.noneV` value where the source manipulates `None` as a first-class
value.  External collaborators (netmiko connections, the TextFSM engine)
are modelled as injected function records, exactly as they are injected
into `PackRunner` via its constructor.  Python floats are modelled as
exact rationals: every numeric literal appearing in the verified claims
is exactly representable.  Wall-clock timestamp fields of the execution
record are outside the embedding.
-/

namespace NetOpsForge

/-- A runtime value flowing through the validation pipeline:  Python
`None`, a string, or an integer.  These are the shapes that reach
`ValidationEngine._evaluate_condition` in the embedded code paths. -/
inductive PyVal
  | noneV
  | str (s : String)
  | intV (n : ℤ)
deriving DecidableEq

/-- Parsed command output (`parser.py`): a raw string (passthrough), a
single field-mapping (regex named groups), or a sequence of
field-mappings (templated/TextFSM extraction).  Mapping values are
`PyVal` so an unmatched named group (`None`) is representable. -/
inductive Parsed
  | raw (s : String)
  | dict (m : List (String × PyVal))
  | list (l : List (List (String × PyVal)))
deriving DecidableEq

/-- Python whitespace characters recognised by `str.strip()` and `\s`
(ASCII fragment). -/
def isPySpace (c : Char) : Bool :=
  c == ' ' || c == '\t' || c == '\n' || c == '\r' || c == '\x0b' || c == '\x0c'

/-- Model of Python `str.strip()` (no arguments): drop leading and
trailing whitespace. -/
def pyStrip (s : String) : String :=
  String.mk (((s.toList.dropWhile isPySpace).reverse.dropWhile isPySpace).reverse)

/-- Numeric value of a digit string (most significant first). -/
def natOfDigits (cs : List Char) : ℕ :=
  cs.foldl (fun a c => 10 * a + (c.toNat - 48)) 0

/-- `10 ^ n` over `ℤ`, by structural recursion so that the kernel can
evaluate it on concrete inputs. -/
def pow10 : ℕ → ℤ
  | 0 => 1
  | n + 1 => 10 * pow10 n

/-- An exact decimal number `num / 10 ^ exp`: the value of a finite
decimal literal, used to model Python floats.  Every literal accepted
by the condition grammar is a finite decimal, so this representation
is exact; comparisons are by cross-multiplication over `ℤ`. -/
structure PyFloat where
  num : ℤ
  exp : ℕ
deriving DecidableEq

/-- The rational value represented by an exact decimal. -/
def PyFloat.toRat (a : PyFloat) : ℚ :=
  (a.num : ℚ) / (pow10 a.exp : ℚ)

/-- Strict comparison of exact decimals (cross-multiplication). -/
def PyFloat.blt (a b : PyFloat) : Bool :=
  decide (a.num * pow10 b.exp < b.num * pow10 a.exp)

/-- Non-strict comparison of exact decimals. -/
def PyFloat.ble (a b : PyFloat) : Bool :=
  decide (a.num * pow10 b.exp ≤ b.num * pow10 a.exp)

/-- Value equality of exact decimals. -/
def PyFloat.beqv (a b : PyFloat) : Bool :=
  decide (a.num * pow10 b.exp = b.num * pow10 a.exp)

/-- Characters of the operator class `[<>=!]` in the numeric-comparison
regex of `_evaluate_condition`. -/
def opCharNum (c : Char) : Bool :=
  c == '<' || c == '>' || c == '=' || c == '!'

/-- Characters of the operator class `[=!]` in the string-comparison
regex of `_evaluate_condition`. -/
def opCharStr (c : Char) : Bool :=
  c == '=' || c == '!'

/-- Quote characters of the class `["\x27]` in the string-comparison
regex. -/
def quoteChar (c : Char) : Bool :=
  c == '\x22' || c == '\x27'

/-- Model of the literal part `-?\d+\.?\d*` of the numeric regex,
anchored on the whole character list; returns the exact decimal value
of the literal on success. -/
def parseDecLit (cs : List Char) : Option PyFloat :=
  let neg : Bool := decide (cs.head? = Option.some '-')
  let cs1 := if neg then cs.tail else cs
  let sgn : ℤ := if neg then -1 else 1
  let ds := cs1.takeWhile Char.isDigit
  let r1 := cs1.dropWhile Char.isDigit
  if ds.isEmpty then Option.none
  else
    match r1 with
    | [] => Option.some ⟨sgn * (natOfDigits ds : ℤ), 0⟩
    | '.' :: fs =>
      if fs.all Char.isDigit then
        Option.some ⟨sgn * (natOfDigits (ds ++ fs) : ℤ), fs.length⟩
      else Option.none
    | _ => Option.none

/-- Whether a character list is exactly a signed decimal literal
`-?\d+\.?\d*`. -/
def isDecLit (cs : List Char) : Bool :=
  (parseDecLit cs).isSome

namespace ValidationEngine

/-- Combined model of the two anchored numeric-condition regexes of
`_evaluate_condition` (`^[<>=!]+\s*-?\d+\.?\d*$` and its capturing
variant `^([<>=!]+)\s*(-?\d+\.?\d*)$`, which accept the same language):
returns the operator text and the literal value when the whole
condition matches. -/
def numericCondParse (condition : String) : Option (String × PyFloat) :=
  let cs := condition.toList
  let op := cs.takeWhile opCharNum
  let rest := (cs.dropWhile opCharNum).dropWhile isPySpace
  if op.isEmpty then Option.none
  else (parseDecLit rest).map (fun q => (String.mk op, q))

/-- Whether the trimmed condition matches the numeric-comparison
grammar. -/
def matchesNumeric (condition : String) : Bool :=
  (numericCondParse condition).isSome

/-- Combined model of the two anchored string-condition regexes
(`^[=!]+\s*["\x27].*["\x27]$` gate and capture variant
`^([=!]+)\s*["\x27](.*)["\x27]\s*$`): operator characters, optional
whitespace, an opening quote, a greedy newline-free body, and a closing
quote at the very end of the (already stripped) condition. -/
def stringCondParse (condition : String) : Option (String × String) :=
  let cs := condition.toList
  let op := cs.takeWhile opCharStr
  let rest := (cs.dropWhile opCharStr).dropWhile isPySpace
  if op.isEmpty then Option.none
  else
    match rest with
    | q1 :: body =>
      if quoteChar q1 then
        match body.reverse with
        | q2 :: midRev =>
          if quoteChar q2 && midRev.all (fun c => !(c == '\n')) then
            Option.some (String.mk op, String.mk midRev.reverse)
          else Option.none
        | [] => Option.none
      else Option.none
    | [] => Option.none

/-- Whether the trimmed condition matches the string-comparison
grammar. -/
def matchesStringCond (condition : String) : Bool :=
  (stringCondParse condition).isSome

end ValidationEngine

/-- Model of CPython `float(x)` for the values that reach the
evaluator: fails (raises, in the source) on `None`; is exact on
integers; on strings accepts an optionally signed finite decimal with
optional fraction and exponent after stripping whitespace.  The
`inf`/`nan`/underscore spellings accepted by CPython are treated as
failures; no verified claim exercises them. -/
def pyFloatOfString (s : String) : Option PyFloat :=
  let cs0 := (pyStrip s).toList
  let sgn : ℤ × List Char :=
    match cs0 with
    | '+' :: r => (1, r)
    | '-' :: r => (-1, r)
    | r => (1, r)
  let ip := sgn.2.takeWhile Char.isDigit
  let cs1 := sgn.2.dropWhile Char.isDigit
  let mantissa : Option (PyFloat × List Char) :=
    match cs1 with
    | '.' :: r =>
      let fp := r.takeWhile Char.isDigit
      let r1 := r.dropWhile Char.isDigit
      if ip.isEmpty && fp.isEmpty then Option.none
      else Option.some (⟨sgn.1 * (natOfDigits (ip ++ fp) : ℤ), fp.length⟩, r1)
    | r => if ip.isEmpty then Option.none else Option.some (⟨sgn.1 * (natOfDigits ip : ℤ), 0⟩, r)
  match mantissa with
  | Option.none => Option.none
  | Option.some (m, rest) =>
    match rest with
    | [] => Option.some m
    | e :: r =>
      if e == 'e' || e == 'E' then
        let esgn : Bool × List Char :=
          match r with
          | '+' :: r2 => (false, r2)
          | '-' :: r2 => (true, r2)
          | r2 => (false, r2)
        let ed := esgn.2.takeWhile Char.isDigit
        let r2 := esgn.2.dropWhile Char.isDigit
        if ed.isEmpty || !r2.isEmpty then Option.none
        else if esgn.1 then Option.some ⟨m.num, m.exp + natOfDigits ed⟩
        else Option.some ⟨m.num * pow10 (natOfDigits ed), m.exp⟩
      else Option.none

/-- `float()` coercion of a pipeline value. -/
def pyFloat : PyVal → Option PyFloat
  | PyVal.noneV => Option.none
  | PyVal.str s => pyFloatOfString s
  | PyVal.intV n => Option.some ⟨n, 0⟩

/-- `str()` rendering of a pipeline value, as used by the string
branch and the f-string message of the validator. -/
def pyStrOf : PyVal → String
  | PyVal.noneV => "None"
  | PyVal.str s => s
  | PyVal.intV n => toString n

namespace ValidationEngine

/-- Embedding of `ValidationEngine._evaluate_condition`.  The source
wraps its body in a blanket `try/except` returning `False`; here every
fallible Python operation (`float(...)`) is modelled with `Option` and
the handler corresponds to the `Option.none` arms, so the function is
total and Bool-valued by construction, as the source is by its
`except` clause. -/
def evaluate_condition (actual_value : PyVal) (condition : String) : Bool :=
  if actual_value = PyVal.noneV then false
  else
    let cond := pyStrip condition
    match numericCondParse cond with
    | Option.some (op, expected_value) =>
      match pyFloat actual_value with
      | Option.none => false
      | Option.some actual_numeric =>
        if op = "<" then actual_numeric.blt expected_value
        else if op = "<=" then actual_numeric.ble expected_value
        else if op = ">" then expected_value.blt actual_numeric
        else if op = ">=" then expected_value.ble actual_numeric
        else if op = "==" || op = "=" then actual_numeric.beqv expected_value
        else if op = "!=" then !(actual_numeric.beqv expected_value)
        else false
    | Option.none =>
      match stringCondParse cond with
      | Option.some (op, expected_value) =>
        let actual_str := pyStrOf actual_value
        if op = "==" || op = "=" then actual_str == expected_value
        else if op = "!=" then !(actual_str == expected_value)
        else false
      | Option.none => false

end ValidationEngine

/-- Truthiness of an optional string under Python `if x:`: `None` and
the empty string are falsy. -/
def pyTruthyOptStr : Option String → Bool
  | Option.none => false
  | Option.some s => !(s == "")

/-- `PackValidation` (pack_loader.py): one declared validation rule. -/
structure PackValidation where
  name : String
  field : String
  condition : String
  severity : String
  message : Option String := Option.none
deriving DecidableEq

/-- `ValidationResult` (validator.py): the verdict for one rule. -/
structure ValidationResult where
  validation_name : String
  field : String
  expected : String
  actual : PyVal
  passed : Bool
  severity : String
  message : String
deriving DecidableEq

/-- `PackMetadata` (pack_loader.py). -/
structure PackMetadata where
  name : String
  display_name : String
  description : String
  version : String
  category : String
  vendor : String
  platforms : List String
  operation_type : String
  requires_ticket : Bool
  tags : List String := []
deriving DecidableEq

/-- `PackExecution` (pack_loader.py). -/
structure PackExecution where
  mode : String
  timeout_seconds : ℕ := 60
  retry_count : ℕ := 2
  retry_delay_seconds : ℕ := 5
  parallel_execution : Bool := false
deriving DecidableEq

/-- `PackAuthentication` (pack_loader.py). -/
structure PackAuthentication where
  credential_ref : String
  connection_type : String
  port : Option ℕ := Option.none
  enable_mode : Bool := false
  enable_credential_ref : Option String := Option.none
deriving DecidableEq

/-- `PackCommand` (pack_loader.py). -/
structure PackCommand where
  name : String
  command : String
  parser : String
  parser_template : Option String := Option.none
  parser_pattern : Option String := Option.none
  timeout_seconds : Option ℕ := Option.none
  expect_string : Option String := Option.none
deriving DecidableEq

/-- `Pack` (pack_loader.py).  The untyped passthrough fields
(`targets`, `pre_checks`, `output`, `linear_integration`,
`cmdb_update`, `logging`, `raw_data`) are uninterpreted by every code
path under verification and are omitted. -/
structure Pack where
  metadata : PackMetadata
  execution : PackExecution
  authentication : PackAuthentication
  commands : List PackCommand
  validations : List PackValidation := []
deriving DecidableEq

/-- `Device` (cmdb.py).  The `metadata` catch-all map is uninterpreted
by the runner and omitted. -/
structure Device where
  hostname : String
  management_ip : String
  device_type : String
  device_role : String
  vendor : String
  platform : String
  credential_ref : String
  model : Option String := Option.none
  site : Option String := Option.none
  rack : Option String := Option.none
  serial_number : Option String := Option.none
  tags : List String := []
  bgp_enabled : Bool := false
  ospf_enabled : Bool := false
deriving DecidableEq

/-- `Device.allows_execution` (cmdb.py): membership of the
execution-allow marker in the tag list. -/
def Device.allows_execution (d : Device) : Bool :=
  d.tags.contains "allow_execute"

namespace CMDB

/-- `CMDB.get_device` (cmdb.py): first device whose hostname matches,
`None` otherwise. -/
def get_device (devices : List Device) (hostname : String) : Option Device :=
  devices.find? (fun d => d.hostname == hostname)

end CMDB

namespace ParserEngine

/-- Python `dict.get(key)`: the stored value, or `None` when the key is
missing.  A stored `None` value and a missing key are indistinguishable
at the call site, exactly as in Python. -/
def dictGet (m : List (String × PyVal)) (k : String) : PyVal :=
  (m.lookup k).getD PyVal.noneV

/-- Embedding of `ParserEngine.extract_value` (parser.py).  Both the
simple-field branch and the complex-path branch of the source perform
the same shallow access; the source distinguishes them only by
comment.  A raw string, an empty sequence, or a missing field yield
`None` (in the source, via `dict.get` or the catch-all handler that
absorbs the `AttributeError` of a non-mapping element). -/
def extract_value (parsed_data : Parsed) (field_path : String) : PyVal :=
  if !(field_path.toList.contains '.') && !(field_path.toList.contains '[') then
    match parsed_data with
    | Parsed.dict m => dictGet m field_path
    | Parsed.list (first :: _) => dictGet first field_path
    | _ => PyVal.noneV
  else
    match parsed_data with
    | Parsed.dict m => dictGet m field_path
    | Parsed.list (first :: _) => dictGet first field_path
    | _ => PyVal.noneV

end ParserEngine

namespace ValidationEngine

/-- Embedding of `ValidationEngine._extract_field_value` (validator.py):
search every command result in declared order and return the first
non-`None` hit, else `None`. -/
def extract_field_value (field : String) (parsed_data : List (String × Parsed)) : PyVal :=
  match parsed_data with
  | [] => PyVal.noneV
  | (_, cmd_data) :: rest =>
    let value := ParserEngine.extract_value cmd_data field
    if value ≠ PyVal.noneV then value else extract_field_value field rest

/-- Embedding of `ValidationEngine._execute_validation` (validator.py). -/
def execute_validation (validation : PackValidation)
    (parsed_data : List (String × Parsed)) : ValidationResult :=
  let actual_value := extract_field_value validation.field parsed_data
  let passed := evaluate_condition actual_value validation.condition
  let message :=
    if pyTruthyOptStr validation.message then validation.message.getD ""
    else
      (if passed then "PASS" else "FAIL") ++ ": " ++ validation.field ++ " "
        ++ validation.condition ++ " (actual: " ++ pyStrOf actual_value ++ ")"
  { validation_name := validation.name
    field := validation.field
    expected := validation.condition
    actual := actual_value
    passed := passed
    severity := validation.severity
    message := message }

/-- Embedding of `ValidationEngine.validate` (validator.py): one
verdict per declared rule, in order. -/
def validate (validations : List PackValidation)
    (parsed_data : List (String × Parsed)) : List ValidationResult :=
  validations.map (fun v => execute_validation v parsed_data)

end ValidationEngine

namespace PackLoader

/-- Per-command checks of `PackLoader.validate_pack` (pack_loader.py):
known parser kind, template present for `textfsm`, pattern present for
`regex`. -/
def command_errors (cmd : PackCommand) : List String :=
  (if cmd.parser ∉ (["textfsm", "regex", "raw"] : List String) then
    ["Invalid parser for command \x27" ++ cmd.name ++ "\x27: " ++ cmd.parser]
  else []) ++
  (if cmd.parser = "textfsm" ∧ ¬ pyTruthyOptStr cmd.parser_template then
    ["Command \x27" ++ cmd.name ++ "\x27 uses textfsm but no parser_template specified"]
  else []) ++
  (if cmd.parser = "regex" ∧ ¬ pyTruthyOptStr cmd.parser_pattern then
    ["Command \x27" ++ cmd.name ++ "\x27 uses regex but no parser_pattern specified"]
  else [])

/-- Per-rule severity check of `PackLoader.validate_pack`. -/
def validation_errors (val : PackValidation) : List String :=
  if val.severity ∉ (["info", "warning", "critical"] : List String) then
    ["Invalid severity for validation \x27" ++ val.name ++ "\x27: " ++ val.severity]
  else []

/-- Embedding of `PackLoader.validate_pack` (pack_loader.py): the full
defect list, in source order.  Total by construction, as the source
performs no fallible operation. -/
def validate_pack (pack : Pack) : List String :=
  (if pack.metadata.name = "" then ["Pack name is required"] else []) ++
  (if pack.commands = [] then ["Pack must have at least one command"] else []) ++
  (if pack.metadata.operation_type ∉ (["read", "write"] : List String) then
    ["Invalid operation_type: " ++ pack.metadata.operation_type]
  else []) ++
  (if pack.execution.mode ∉ (["observe", "execute"] : List String) then
    ["Invalid execution mode: " ++ pack.execution.mode]
  else []) ++
  (if pack.authentication.connection_type ∉ (["ssh", "telnet", "api"] : List String) then
    ["Invalid connection_type: " ++ pack.authentication.connection_type]
  else []) ++
  pack.commands.flatMap command_errors ++
  pack.validations.flatMap validation_errors

/-- The structural well-formedness the defect list checks: exactly the
conditions enumerated by `validate_pack`. -/
def PackWellFormed (pack : Pack) : Prop :=
  pack.metadata.name ≠ "" ∧
  pack.commands ≠ [] ∧
  pack.metadata.operation_type ∈ (["read", "write"] : List String) ∧
  pack.execution.mode ∈ (["observe", "execute"] : List String) ∧
  pack.authentication.connection_type ∈ (["ssh", "telnet", "api"] : List String) ∧
  (∀ cmd ∈ pack.commands,
    cmd.parser ∈ (["textfsm", "regex", "raw"] : List String) ∧
    (cmd.parser = "textfsm" → pyTruthyOptStr cmd.parser_template = true) ∧
    (cmd.parser = "regex" → pyTruthyOptStr cmd.parser_pattern = true)) ∧
  (∀ val ∈ pack.validations, val.severity ∈ (["info", "warning", "critical"] : List String))

instance (pack : Pack) : Decidable (PackWellFormed pack) := by
  unfold PackWellFormed
  infer_instance

end PackLoader

/-- Observable calls made on the connection collaborator during one
run: session open, one command execution, session close.  The trace
lets the temporal claims (no connection on dry run / policy violation,
exactly one disconnect) be stated. -/
inductive Event
  | connect
  | exec (name : String)
  | disconnect
deriving DecidableEq

/-- `ConnectionResult` (connection.py). -/
structure ConnectionResult (σ : Type) where
  success : Bool
  message : String
  connection : Option σ := Option.none
  error : Option String := Option.none

/-- The collaborators injected into `PackRunner` (runner.py
constructor): the connection manager's `connect` /
`execute_command` (which re-raises command failures) and the parser
engine's `parse` (which raises on missing templates or extraction
failures).  `σ` is the opaque session type produced by the external
transport. -/
structure Collaborators (σ : Type) where
  connect : Device → String → Option ℕ → ℕ → ConnectionResult σ
  execute_command : Option σ → String → ℕ → Except String String
  parse : String → String → Option String → Option String → Except String Parsed

/-- Python `a or b` over an optional integer with an integer default:
`None` and `0` both fall back, mirroring
`cmd.timeout_seconds or pack.execution.timeout_seconds`. -/
def pyOrNat (a : Option ℕ) (b : ℕ) : ℕ :=
  match a with
  | Option.some t => if t = 0 then b else t
  | Option.none => b

namespace PackRunner

/-- Python dict assignment `results[name] = v`: update in place when
the key exists, append otherwise (insertion order preserved). -/
def dict_insert (m : List (String × Parsed)) (k : String) (v : Parsed) :
    List (String × Parsed) :=
  if (m.lookup k).isSome then m.map (fun p => if p.1 = k then (k, v) else p)
  else m ++ [(k, v)]

/-- The per-command timeout of `_execute_commands`:
`cmd.timeout_seconds or pack.execution.timeout_seconds`. -/
def cmd_timeout (pack : Pack) (cmd : PackCommand) : ℕ :=
  pyOrNat cmd.timeout_seconds pack.execution.timeout_seconds

/-- The body of one iteration of the command loop of
`_execute_commands`: execute the command, then parse its output;
either step may raise. -/
def cmd_step {σ : Type} (C : Collaborators σ) (pack : Pack) (connection : Option σ)
    (cmd : PackCommand) : Except String Parsed :=
  match C.execute_command connection cmd.command (cmd_timeout pack cmd) with
  | Except.error e => Except.error e
  | Except.ok output =>
    match C.parse output cmd.parser cmd.parser_template cmd.parser_pattern with
    | Except.error e => Except.error e
    | Except.ok parsed => Except.ok parsed

/-- The command loop of `_execute_commands`: commands run in declared
order; the first raising command aborts the loop with its exception.
The trace records each `execute_command` call. -/
def execute_loop {σ : Type} (C : Collaborators σ) (pack : Pack) (connection : Option σ) :
    List PackCommand → List (String × Parsed) →
    List Event × Except String (List (String × Parsed))
  | [], results => ([], Except.ok results)
  | cmd :: rest, results =>
    match cmd_step C pack connection cmd with
    | Except.error e => ([Event.exec cmd.name], Except.error e)
    | Except.ok parsed =>
      let r := execute_loop C pack connection rest (dict_insert results cmd.name parsed)
      (Event.exec cmd.name :: r.1, r.2)

/-- The `connection_manager.connect` call of `_execute_commands`, with
the arguments the runner passes. -/
def open_connection {σ : Type} (C : Collaborators σ) (pack : Pack) (device : Device) :
    ConnectionResult σ :=
  C.connect device pack.authentication.credential_ref pack.authentication.port
    pack.execution.timeout_seconds

/-- Embedding of `PackRunner._execute_commands` (runner.py).  A failed
connect raises `RuntimeError` before the `connection` local is
assigned, so the `finally` block skips `disconnect`; once the local is
assigned (a truthy session), `disconnect` runs on every exit path. -/
def execute_commands {σ : Type} (C : Collaborators σ) (pack : Pack) (device : Device) :
    List Event × Except String (List (String × Parsed)) :=
  let conn_result := open_connection C pack device
  if conn_result.success then
    let connection := conn_result.connection
    let r := execute_loop C pack connection pack.commands []
    let fin := if connection.isSome then [Event.disconnect] else []
    (Event.connect :: r.1 ++ fin, r.2)
  else
    (Event.connect :: [], Except.error ("Connection failed: " ++ conn_result.message))

end PackRunner

/-- `ExecutionResult` (runner.py), minus the wall-clock timestamp pair
(outside the embedding; `duration_seconds` is derived from it and
carries no other information). -/
structure ExecutionResult where
  pack_name : String
  device_hostname : String
  success : Bool
  commands_executed : ℕ := 0
  validations_passed : ℕ := 0
  validations_failed : ℕ := 0
  command_results : List (String × Parsed) := []
  validation_results : List ValidationResult := []
  error : Option String := Option.none
deriving DecidableEq

/-- The environment a `PackRunner` runs in: the pack store behind
`PackLoader.load_pack` (a `None` entry models the missing file whose
`FileNotFoundError` carries the path `packs_dir/name.yml`), the CMDB
device list, and the injected connection/parsing collaborators. -/
structure World (σ : Type) where
  packs_dir : String
  packs : String → Option Pack
  devices : List Device
  collab : Collaborators σ

namespace PackRunner

/-- Embedding of `PackRunner._create_error_result` (runner.py). -/
def create_error_result (pack_name device_hostname error : String) : ExecutionResult :=
  { pack_name := pack_name
    device_hostname := device_hostname
    success := false
    error := Option.some error }

/-- The validation phase of `run_pack` (runner.py lines 123–128): rules
are evaluated only when both the declared rule list and the
command-result mapping are non-empty. -/
def run_validations (pack : Pack) (command_results : List (String × Parsed)) :
    List ValidationResult :=
  if pack.validations ≠ [] ∧ command_results ≠ [] then
    ValidationEngine.validate pack.validations command_results
  else []

/-- Embedding of `PackRunner.run_pack` (runner.py).  The whole body
sits inside `try/except Exception`, which converts every raised
exception — including the `FileNotFoundError` of a missing pack —
into an error result, so the function always returns a record; the
match arms on `Except.error` correspond to that handler.  The trace
collects the connection-collaborator calls of the run. -/
def run_pack {σ : Type} (w : World σ) (pack_name device_hostname : String)
    (dry_run : Bool) : List Event × ExecutionResult :=
  match w.packs pack_name with
  | Option.none =>
    ([], create_error_result pack_name device_hostname
      ("Execution error: Pack not found: " ++ w.packs_dir ++ "/" ++ pack_name ++ ".yml"))
  | Option.some pack =>
    let errors := PackLoader.validate_pack pack
    if errors ≠ [] then
      ([], create_error_result pack_name device_hostname
        ("Pack validation failed: " ++ String.intercalate ", " errors))
    else
      match CMDB.get_device w.devices device_hostname with
      | Option.none =>
        ([], create_error_result pack_name device_hostname
          ("Device not found in CMDB: " ++ device_hostname))
      | Option.some device =>
        if pack.execution.mode = "execute" ∧ device.allows_execution = false then
          ([], create_error_result pack_name device_hostname
            ("Device " ++ device_hostname
              ++ " does not allow execution (missing \x27allow_execute\x27 tag)"))
        else
          let step :=
            if dry_run then ([], Except.ok [])
            else execute_commands w.collab pack device
          match step with
          | (trace, Except.error e) =>
            (trace, create_error_result pack_name device_hostname ("Execution error: " ++ e))
          | (trace, Except.ok command_results) =>
            let validation_results := run_validations pack command_results
            let validations_passed := (validation_results.filter (fun v => v.passed)).length
            let validations_failed := validation_results.length - validations_passed
            (trace,
              { pack_name := pack_name
                device_hostname := device_hostname
                success := true
                commands_executed := command_results.length
                validations_passed := validations_passed
                validations_failed := validations_failed
                command_results := command_results
                validation_results := validation_results
                error := Option.none })

end PackRunner

/-! Concrete fixtures used to instantiate the theorems below on
explicit inputs. -/

/-- A well-formed read/observe pack with one raw command and one
validation rule. -/
def samplePack : Pack :=
  { metadata :=
      { name := "health_check"
        display_name := "Health Check"
        description := "basic health check"
        version := "1.0"
        category := "health"
        vendor := "cisco"
        platforms := ["ios"]
        operation_type := "read"
        requires_ticket := false }
    execution := { mode := "observe" }
    authentication := { credential_ref := "network_admin", connection_type := "ssh" }
    commands := [{ name := "version", command := "show version", parser := "raw" }]
    validations :=
      [{ name := "cpu_ok", field := "cpu_5min", condition := "< 95", severity := "critical" }] }

/-- Identical to `samplePack` but with `mode = execute`. -/
def samplePackExecute : Pack :=
  { samplePack with execution := { mode := "execute" } }

/-- A CMDB device without the execution-allow tag. -/
def sampleDevice : Device :=
  { hostname := "core-sw-01"
    management_ip := "10.0.0.1"
    device_type := "switch"
    device_role := "core"
    vendor := "cisco"
    platform := "ios"
    credential_ref := "network_admin" }

/-- Collaborators that refuse everything: any call is observable in the
trace, so theorems about runs that must not touch the transport can use
them. -/
def unreachableCollab : Collaborators Unit :=
  { connect := fun _ _ _ _ => { success := false, message := "unreachable" }
    execute_command := fun _ _ _ => Except.error "unreachable"
    parse := fun _ _ _ _ => Except.error "unreachable" }

/-- A world holding `samplePack` (under its loader name) and
`samplePackExecute`, with `sampleDevice` in the CMDB. -/
def sampleWorld : World Unit :=
  { packs_dir := "packs"
    packs := fun n =>
      if n = "health_check" then Option.some samplePack
      else if n = "health_check_exec" then Option.some samplePackExecute
      else Option.none
    devices := [sampleDevice]
    collab := unreachableCollab }

/-- A rule whose field occurs in no command result. -/
def ruleAbsentField : PackValidation :=
  { name := "absent", field := "missing_field", condition := "> 0", severity := "info" }

/-- Three raw commands for the abort-on-failure scenario. -/
def cmdOne : PackCommand := { name := "step1", command := "show a", parser := "raw" }

/-- Second command; its execution raises under `collabFailSecond`. -/
def cmdTwo : PackCommand := { name := "step2", command := "show b", parser := "raw" }

/-- Third command; must never run in the abort scenario. -/
def cmdThree : PackCommand := { name := "step3", command := "show c", parser := "raw" }

/-- A well-formed pack with three commands and no validations. -/
def packThreeCommands : Pack :=
  { metadata :=
      { name := "triple"
        display_name := "Triple"
        description := "three commands"
        version := "1.0"
        category := "ops"
        vendor := "cisco"
        platforms := ["ios"]
        operation_type := "read"
        requires_ticket := false }
    execution := { mode := "observe" }
    authentication := { credential_ref := "network_admin", connection_type := "ssh" }
    commands := [cmdOne, cmdTwo, cmdThree] }

/-- Collaborators whose transport connects, whose second command raises
and whose parsing is passthrough. -/
def collabFailSecond : Collaborators Unit :=
  { connect := fun _ _ _ _ =>
      { success := true, message := "connected", connection := Option.some () }
    execute_command := fun _ cmd _ =>
      if cmd = "show b" then Except.error "transport failure on show b" else Except.ok "output"
    parse := fun output _ _ _ => Except.ok (Parsed.raw output) }

/-- A world for the abort-on-command-failure scenario. -/
def worldFailSecond : World Unit :=
  { packs_dir := "packs"
    packs := fun n => if n = "triple" then Option.some packThreeCommands else Option.none
    devices := [sampleDevice]
    collab := collabFailSecond }

/-- A pack corrupted in every scalar required field at once: empty
name, no commands, unknown operation kind, unknown execution mode,
unknown connection kind, unknown rule severity. -/
def badPackScalars : Pack :=
  { metadata :=
      { name := ""
        display_name := "Bad"
        description := "bad"
        version := "1.0"
        category := "x"
        vendor := "x"
        platforms := []
        operation_type := "delete"
        requires_ticket := false }
    execution := { mode := "destroy" }
    authentication := { credential_ref := "c", connection_type := "carrier-pigeon" }
    commands := []
    validations :=
      [{ name := "sev", field := "f", condition := "> 0", severity := "fatal" }] }

/-- A pack whose commands violate the per-parser requirements: a
templated command without a template and a pattern command without a
pattern. -/
def badPackCommands : Pack :=
  { metadata :=
      { name := "bad_commands"
        display_name := "Bad Commands"
        description := "bad"
        version := "1.0"
        category := "x"
        vendor := "x"
        platforms := ["ios"]
        operation_type := "read"
        requires_ticket := false }
    execution := { mode := "observe" }
    authentication := { credential_ref := "c", connection_type := "ssh" }
    commands :=
      [{ name := "t", command := "show t", parser := "textfsm" },
       { name := "r", command := "show r", parser := "regex", parser_pattern := Option.some "" }] }

/-! Theorems.  First the bridge between exact-decimal comparison and
the rational order, then supporting lemmas about the embedded
functions, then one theorem per verified claim. -/

theorem pow10_pos (n : ℕ) : 0 < pow10 n := by
  induction n with
  | zero => simp [pow10]
  | succ n ih => rw [pow10]; positivity

theorem pow10_cast_pos (n : ℕ) : (0 : ℚ) < (pow10 n : ℚ) := by
  exact_mod_cast pow10_pos n

/-- Cross-multiplication computes the rational order. -/
theorem PyFloat.blt_eq (a b : PyFloat) : a.blt b = decide (a.toRat < b.toRat) := by
  have h : a.toRat < b.toRat ↔ a.num * pow10 b.exp < b.num * pow10 a.exp := by
    rw [PyFloat.toRat, PyFloat.toRat,
      div_lt_div_iff₀ (pow10_cast_pos a.exp) (pow10_cast_pos b.exp)]
    exact_mod_cast Iff.rfl
  simp [PyFloat.blt, h]

/-- Cross-multiplication computes the rational non-strict order. -/
theorem PyFloat.ble_eq (a b : PyFloat) : a.ble b = decide (a.toRat ≤ b.toRat) := by
  have h : a.toRat ≤ b.toRat ↔ a.num * pow10 b.exp ≤ b.num * pow10 a.exp := by
    rw [PyFloat.toRat, PyFloat.toRat,
      div_le_div_iff₀ (pow10_cast_pos a.exp) (pow10_cast_pos b.exp)]
    exact_mod_cast Iff.rfl
  simp [PyFloat.ble, h]

/-- Cross-multiplication computes rational value equality. -/
theorem PyFloat.beqv_eq (a b : PyFloat) : a.beqv b = decide (a.toRat = b.toRat) := by
  have h : a.toRat = b.toRat ↔ a.num * pow10 b.exp = b.num * pow10 a.exp := by
    rw [PyFloat.toRat, PyFloat.toRat,
      div_eq_div_iff (ne_of_gt (pow10_cast_pos a.exp)) (ne_of_gt (pow10_cast_pos b.exp))]
    exact_mod_cast Iff.rfl
  simp [PyFloat.beqv, h]

/-- A decimal literal starts with a minus sign or a digit. -/
theorem isDecLit_head (c : Char) (rest : List Char) (h : isDecLit (c :: rest) = true) :
    c = '-' ∨ c.isDigit = true := by
  by_cases hc : c = '-'
  · exact Or.inl hc
  · right
    cases hd : c.isDigit with
    | true => rfl
    | false =>
      exfalso
      have hnone : isDecLit (c :: rest) = false := by
        simp [isDecLit, parseDecLit, hc, List.takeWhile_cons, hd]
      rw [hnone] at h
      exact absurd h (by simp)

/-- No operator-class character is a minus sign or a digit. -/
theorem digit_not_opchar (c : Char) (h : c.isDigit = true) :
    opCharNum c = false ∧ opCharStr c = false := by
  refine ⟨?_, ?_⟩
  · cases hop : opCharNum c with
    | false => rfl
    | true =>
      exfalso
      have h4 : ((c = '<' ∨ c = '>') ∨ c = '=') ∨ c = '!' := by
        simpa [opCharNum] using hop
      rcases h4 with ((rfl | rfl) | rfl) | rfl <;> exact absurd h (by decide)
  · cases hop : opCharStr c with
    | false => rfl
    | true =>
      exfalso
      have h2 : c = '=' ∨ c = '!' := by simpa [opCharStr] using hop
      rcases h2 with rfl | rfl <;> exact absurd h (by decide)

/-- A condition whose first character is outside the numeric operator
class cannot match the numeric grammar. -/
theorem numericCondParse_none_of_head (t : String) (c : Char) (rest : List Char)
    (hcs : t.toList = c :: rest) (hc : opCharNum c = false) :
    ValidationEngine.numericCondParse t = Option.none := by
  unfold ValidationEngine.numericCondParse
  rw [hcs]
  simp [List.takeWhile_cons, hc]

/-- A condition whose first character is outside the string operator
class cannot match the string grammar. -/
theorem stringCondParse_none_of_head (t : String) (c : Char) (rest : List Char)
    (hcs : t.toList = c :: rest) (hc : opCharStr c = false) :
    ValidationEngine.stringCondParse t = Option.none := by
  unfold ValidationEngine.stringCondParse
  rw [hcs]
  simp [List.takeWhile_cons, hc]

/-- When a rule's field occurs in no command result, the search over
all command results returns `None`. -/
theorem extract_field_value_eq_noneV (field : String) (parsed : List (String × Parsed))
    (h : ∀ pr ∈ parsed, ParserEngine.extract_value pr.2 field = PyVal.noneV) :
    ValidationEngine.extract_field_value field parsed = PyVal.noneV := by
  induction parsed with
  | nil => rfl
  | cons hd tl ih =>
    obtain ⟨nm, pd⟩ := hd
    have h1 : ParserEngine.extract_value pd field = PyVal.noneV := h (nm, pd) (by simp)
    rw [ValidationEngine.extract_field_value]
    simp only [h1, ne_eq, not_true_eq_false, if_false]
    exact ih (fun pr hm => h pr (by simp [hm]))

/-- An absent actual value evaluates to FAIL. -/
theorem evaluate_condition_noneV (cond : String) :
    ValidationEngine.evaluate_condition PyVal.noneV cond = false := by
  simp [ValidationEngine.evaluate_condition]

/-- C1: the condition evaluator is total — it is a `Bool`-valued
function, every fallible coercion being handled inside it, so no
exception escapes — and in particular (i) a condition matching neither
the numeric nor the string grammar yields FAIL for every actual value,
(ii) an absent (`None`) actual value yields FAIL, and (iii) a rule
whose field occurs in no command result produces a verdict with
`actual` absent and `passed = false`. -/
theorem c1_evaluator_total (actual : PyVal) (cond : String)
    (v : PackValidation) (parsed : List (String × Parsed)) :
    (ValidationEngine.matchesNumeric (pyStrip cond) = false →
      ValidationEngine.matchesStringCond (pyStrip cond) = false →
      ValidationEngine.evaluate_condition actual cond = false)
  ∧ ValidationEngine.evaluate_condition PyVal.noneV cond = false
  ∧ ((∀ pr ∈ parsed, ParserEngine.extract_value pr.2 v.field = PyVal.noneV) →
      (ValidationEngine.execute_validation v parsed).actual = PyVal.noneV ∧
      (ValidationEngine.execute_validation v parsed).passed = false) := by
  refine ⟨?_, evaluate_condition_noneV cond, ?_⟩
  · intro hnum hstr
    rw [ValidationEngine.matchesNumeric] at hnum
    rw [ValidationEngine.matchesStringCond] at hstr
    cases hn : ValidationEngine.numericCondParse (pyStrip cond) with
    | some p => rw [hn] at hnum; exact absurd hnum (by simp)
    | none =>
      cases hs : ValidationEngine.stringCondParse (pyStrip cond) with
      | some p => rw [hs] at hstr; exact absurd hstr (by simp)
      | none => simp [ValidationEngine.evaluate_condition, hn, hs]
  · intro habs
    have hext := extract_field_value_eq_noneV v.field parsed habs
    constructor
    · simp [ValidationEngine.execute_validation, hext]
    · simp [ValidationEngine.execute_validation, hext, evaluate_condition_noneV]

/-- Witness for C1 at concrete inputs: an unparseable condition, an
absent value, and a field found in no command result. -/
theorem c1_evaluator_total_witness :
    ValidationEngine.evaluate_condition (PyVal.str "up") "~~~" = false ∧
    ValidationEngine.evaluate_condition PyVal.noneV "< 95" = false ∧
    ((ValidationEngine.execute_validation ruleAbsentField
        [("version", Parsed.raw "some output")]).actual = PyVal.noneV ∧
      (ValidationEngine.execute_validation ruleAbsentField
        [("version", Parsed.raw "some output")]).passed = false) := by
  refine ⟨?_, ?_, ?_⟩
  · exact (c1_evaluator_total (PyVal.str "up") "~~~" ruleAbsentField []).1
      (by decide) (by decide)
  · exact (c1_evaluator_total (PyVal.str "up") "< 95" ruleAbsentField []).2.1
  · exact (c1_evaluator_total (PyVal.str "up") "x" ruleAbsentField
      [("version", Parsed.raw "some output")]).2.2 (by decide)

/-- C4 as stated is false: a condition that is a bare signed decimal
literal does not match the numeric-comparison regex (whose operator
class is `+`-quantified, hence mandatory), and evaluation falls
through to the forced-FAIL branch even when the actual value equals
the literal. -/
theorem c4_counterexample :
    ValidationEngine.matchesNumeric "5" = false ∧
    ValidationEngine.evaluate_condition (PyVal.intV 5) "5" = false := by
  decide

/-- C4 (amended): the operator of the numeric comparison form is
mandatory, not optional — a condition consisting of only a signed
decimal literal matches neither grammar and is forced to FAIL by the
unrecognized-condition branch regardless of the actual value. -/
theorem c4_bare_literal_fails (s : String) (actual : PyVal)
    (h : isDecLit (pyStrip s).toList = true) :
    ValidationEngine.matchesNumeric (pyStrip s) = false ∧
    ValidationEngine.evaluate_condition actual s = false := by
  cases hcs : (pyStrip s).toList with
  | nil =>
    rw [hcs] at h
    exact absurd h (by decide)
  | cons c rest =>
    rw [hcs] at h
    have hnop : opCharNum c = false ∧ opCharStr c = false := by
      rcases isDecLit_head c rest h with rfl | hdig
      · exact ⟨by decide, by decide⟩
      · exact digit_not_opchar c hdig
    have hnum : ValidationEngine.numericCondParse (pyStrip s) = Option.none :=
      numericCondParse_none_of_head (pyStrip s) c rest hcs hnop.1
    have hstr : ValidationEngine.stringCondParse (pyStrip s) = Option.none :=
      stringCondParse_none_of_head (pyStrip s) c rest hcs hnop.2
    refine ⟨by simp [ValidationEngine.matchesNumeric, hnum], ?_⟩
    by_cases ha : actual = PyVal.noneV
    · simp [ValidationEngine.evaluate_condition, ha]
    · simp [ValidationEngine.evaluate_condition, ha, hnum, hstr]

/-- Witness for the amended C4 at the bare literal `"5"`. -/
theorem c4_bare_literal_fails_witness :
    isDecLit (pyStrip "5").toList = true ∧
    ValidationEngine.matchesNumeric (pyStrip "5") = false ∧
    ValidationEngine.evaluate_condition (PyVal.intV 5) "5" = false := by
  have h := c4_bare_literal_fails "5" (PyVal.intV 5) (by decide)
  exact ⟨by decide, h.1, h.2⟩

/-- C5: numeric evaluation coerces the actual value to a float and
compares it with the literal — shown in general for the condition
`"< 95"` through the exact-decimal coercion `pyFloat` and the rational
order — and concretely: actual `92` PASSes, `97` FAILs, and the
non-numeric `"not-a-number"` FAILs with no exception (coercion failure
is the handled `Option.none` arm). -/
theorem c5_numeric_coercion :
    (∀ (actual : PyVal) (f : PyFloat), pyFloat actual = Option.some f →
      ValidationEngine.evaluate_condition actual "< 95" = decide (f.toRat < 95))
  ∧ ValidationEngine.evaluate_condition (PyVal.intV 92) "< 95" = true
  ∧ ValidationEngine.evaluate_condition (PyVal.intV 97) "< 95" = false
  ∧ ValidationEngine.evaluate_condition (PyVal.str "not-a-number") "< 95" = false := by
  refine ⟨?_, by decide, by decide, by decide⟩
  intro actual f hf
  have ha : ¬(actual = PyVal.noneV) := by
    rintro rfl
    simp [pyFloat] at hf
  have hp : ValidationEngine.numericCondParse (pyStrip "< 95") =
      Option.some ("<", (⟨95, 0⟩ : PyFloat)) := by decide
  simp only [ValidationEngine.evaluate_condition, hp, hf, if_neg ha]
  rw [if_pos trivial, PyFloat.blt_eq]
  norm_num [PyFloat.toRat, pow10]

/-- Witness for C5's coercion clause at the string actual `"92.5"`. -/
theorem c5_numeric_coercion_witness :
    pyFloat (PyVal.str "92.5") = Option.some (⟨925, 1⟩ : PyFloat) ∧
    ValidationEngine.evaluate_condition (PyVal.str "92.5") "< 95" = true := by
  have h := c5_numeric_coercion.1 (PyVal.str "92.5") ⟨925, 1⟩ (by decide)
  refine ⟨by decide, ?_⟩
  rw [h]
  norm_num [PyFloat.toRat, pow10]

/-- C9: field lookup over a parsed value is shallow and total: a
sequence of field-mappings is looked up in its first element only, a
single mapping directly; raw text, an empty sequence, or an absent
field yield `None` rather than an exception. -/
theorem c9_shallow_lookup (m first : List (String × PyVal))
    (rest : List (List (String × PyVal))) (s fp : String) :
    ParserEngine.extract_value (Parsed.dict m) fp = ParserEngine.dictGet m fp
  ∧ ParserEngine.extract_value (Parsed.list (first :: rest)) fp = ParserEngine.dictGet first fp
  ∧ ParserEngine.extract_value (Parsed.raw s) fp = PyVal.noneV
  ∧ ParserEngine.extract_value (Parsed.list []) fp = PyVal.noneV
  ∧ (m.lookup fp = Option.none →
      ParserEngine.extract_value (Parsed.dict m) fp = PyVal.noneV) := by
  refine ⟨?_, ?_, ?_, ?_, ?_⟩
  · unfold ParserEngine.extract_value
    split <;> rfl
  · unfold ParserEngine.extract_value
    split <;> rfl
  · unfold ParserEngine.extract_value
    split <;> rfl
  · unfold ParserEngine.extract_value
    split <;> rfl
  · intro h
    unfold ParserEngine.extract_value
    split <;> simp [ParserEngine.dictGet, h]

/-- C8: structural pack validation is total (a pure list-building
function) and returns an empty defect list exactly on well-formed
packs; each individually corrupted required field contributes a defect
naming that field. -/
theorem c8_validate_pack_defects (pack : Pack) :
    (PackLoader.validate_pack pack = [] ↔ PackLoader.PackWellFormed pack)
  ∧ (pack.metadata.name = "" → "Pack name is required" ∈ PackLoader.validate_pack pack)
  ∧ (pack.commands = [] →
      "Pack must have at least one command" ∈ PackLoader.validate_pack pack)
  ∧ (pack.metadata.operation_type ∉ (["read", "write"] : List String) →
      ("Invalid operation_type: " ++ pack.metadata.operation_type)
        ∈ PackLoader.validate_pack pack)
  ∧ (pack.execution.mode ∉ (["observe", "execute"] : List String) →
      ("Invalid execution mode: " ++ pack.execution.mode) ∈ PackLoader.validate_pack pack)
  ∧ (pack.authentication.connection_type ∉ (["ssh", "telnet", "api"] : List String) →
      ("Invalid connection_type: " ++ pack.authentication.connection_type)
        ∈ PackLoader.validate_pack pack)
  ∧ (∀ cmd ∈ pack.commands, cmd.parser = "textfsm" →
      pyTruthyOptStr cmd.parser_template = false →
      ("Command \x27" ++ cmd.name ++ "\x27 uses textfsm but no parser_template specified")
        ∈ PackLoader.validate_pack pack)
  ∧ (∀ cmd ∈ pack.commands, cmd.parser = "regex" →
      pyTruthyOptStr cmd.parser_pattern = false →
      ("Command \x27" ++ cmd.name ++ "\x27 uses regex but no parser_pattern specified")
        ∈ PackLoader.validate_pack pack)
  ∧ (∀ val ∈ pack.validations, val.severity ∉ (["info", "warning", "critical"] : List String) →
      ("Invalid severity for validation \x27" ++ val.name ++ "\x27: " ++ val.severity)
        ∈ PackLoader.validate_pack pack) := by
  refine ⟨?_, ?_, ?_, ?_, ?_, ?_, ?_, ?_, ?_⟩
  · unfold PackLoader.validate_pack PackLoader.PackWellFormed
      PackLoader.command_errors PackLoader.validation_errors
    simp only [List.append_eq_nil, List.flatMap_eq_nil_iff, ite_eq_right_iff,
      List.cons_ne_nil, imp_false, not_not, not_and, Bool.not_eq_true, and_assoc]
    constructor
    · rintro ⟨h1, h2, h3, h4, h5, h6, h7⟩
      refine ⟨h1, h2, h3, h4, h5, fun cmd hm => ?_, h7⟩
      obtain ⟨ha, hb, hc⟩ := h6 cmd hm
      refine ⟨ha, fun ht => ?_, fun hr => ?_⟩
      · cases hx : pyTruthyOptStr cmd.parser_template with
        | true => rfl
        | false => exact absurd hx (by simpa using hb ht)
      · cases hx : pyTruthyOptStr cmd.parser_pattern with
        | true => rfl
        | false => exact absurd hx (by simpa using hc hr)
    · rintro ⟨h1, h2, h3, h4, h5, h6, h7⟩
      refine ⟨h1, h2, h3, h4, h5, fun cmd hm => ?_, h7⟩
      obtain ⟨ha, hb, hc⟩ := h6 cmd hm
      exact ⟨ha, fun ht => by simp [hb ht], fun hr => by simp [hc hr]⟩
  · intro h
    simp [PackLoader.validate_pack, h]
  · intro h
    simp [PackLoader.validate_pack, h]
  · intro h
    simp [PackLoader.validate_pack, h]
  · intro h
    simp [PackLoader.validate_pack, h]
  · intro h
    simp [PackLoader.validate_pack, h]
  · intro cmd hm hparser htruthy
    have hmem : ("Command \x27" ++ cmd.name ++ "\x27 uses textfsm but no parser_template specified")
        ∈ PackLoader.command_errors cmd := by
      simp [PackLoader.command_errors, hparser, htruthy]
    have hflat := List.mem_flatMap.mpr ⟨cmd, hm, hmem⟩
    unfold PackLoader.validate_pack
    exact List.mem_append_left _ (List.mem_append_right _ hflat)
  · intro cmd hm hparser htruthy
    have hmem : ("Command \x27" ++ cmd.name ++ "\x27 uses regex but no parser_pattern specified")
        ∈ PackLoader.command_errors cmd := by
      simp [PackLoader.command_errors, hparser, htruthy]
    have hflat := List.mem_flatMap.mpr ⟨cmd, hm, hmem⟩
    unfold PackLoader.validate_pack
    exact List.mem_append_left _ (List.mem_append_right _ hflat)
  · intro val hm hsev
    have hmem : ("Invalid severity for validation \x27" ++ val.name ++ "\x27: " ++ val.severity)
        ∈ PackLoader.validation_errors val := by
      simp [PackLoader.validation_errors, hsev]
    have hflat := List.mem_flatMap.mpr ⟨val, hm, hmem⟩
    unfold PackLoader.validate_pack
    exact List.mem_append_right _ hflat

/-- Witness for C8: the well-formed `samplePack` validates cleanly,
and two concretely corrupted packs produce the named defects. -/
theorem c8_validate_pack_defects_witness :
    PackLoader.validate_pack samplePack = []
  ∧ "Pack name is required" ∈ PackLoader.validate_pack badPackScalars
  ∧ "Pack must have at least one command" ∈ PackLoader.validate_pack badPackScalars
  ∧ "Invalid operation_type: delete" ∈ PackLoader.validate_pack badPackScalars
  ∧ "Invalid execution mode: destroy" ∈ PackLoader.validate_pack badPackScalars
  ∧ "Invalid connection_type: carrier-pigeon" ∈ PackLoader.validate_pack badPackScalars
  ∧ "Invalid severity for validation \x27sev\x27: fatal" ∈ PackLoader.validate_pack badPackScalars
  ∧ "Command \x27t\x27 uses textfsm but no parser_template specified"
      ∈ PackLoader.validate_pack badPackCommands
  ∧ "Command \x27r\x27 uses regex but no parser_pattern specified"
      ∈ PackLoader.validate_pack badPackCommands := by
  have hgood := (c8_validate_pack_defects samplePack).1.mpr
  have hbad := c8_validate_pack_defects badPackScalars
  have hcmd := c8_validate_pack_defects badPackCommands
  refine ⟨hgood (by decide), hbad.2.1 (by decide), hbad.2.2.1 (by decide),
    hbad.2.2.2.1 (by decide), hbad.2.2.2.2.1 (by decide), hbad.2.2.2.2.2.1 (by decide),
    hbad.2.2.2.2.2.2.2.2
      ({ name := "sev", field := "f", condition := "> 0", severity := "fatal" } : PackValidation)
      (by decide) (by decide),
    hcmd.2.2.2.2.2.2.1
      ({ name := "t", command := "show t", parser := "textfsm" } : PackCommand)
      (by decide) (by decide) (by decide),
    hcmd.2.2.2.2.2.2.2.1
      ({ name := "r", command := "show r", parser := "regex",
         parser_pattern := Option.some "" } : PackCommand)
      (by decide) (by decide) (by decide)⟩

/-- Witness for C9's absent-field clause at a concrete mapping. -/
theorem c9_shallow_lookup_witness :
    ([("status", PyVal.str "up")] : List (String × PyVal)).lookup "cpu" = Option.none ∧
    ParserEngine.extract_value (Parsed.dict [("status", PyVal.str "up")]) "cpu" = PyVal.noneV := by
  have h := (c9_shallow_lookup [("status", PyVal.str "up")] [] [] "raw" "cpu").2.2.2.2
  exact ⟨by decide, h (by decide)⟩

/-- Reduction of `run_pack` on the missing-pack path: the
`FileNotFoundError` is absorbed by the blanket handler and an error
record is returned. -/
theorem run_pack_pack_not_found {σ : Type} (w : World σ) (pn dh : String) (dry : Bool)
    (hpk : w.packs pn = Option.none) :
    PackRunner.run_pack w pn dh dry =
      ([], PackRunner.create_error_result pn dh
        ("Execution error: Pack not found: " ++ w.packs_dir ++ "/" ++ pn ++ ".yml")) := by
  unfold PackRunner.run_pack
  rw [hpk]

/-- Reduction of `run_pack` on the missing-device path. -/
theorem run_pack_device_not_found {σ : Type} (w : World σ) (pn dh : String) (dry : Bool)
    (pack : Pack) (hpk : w.packs pn = Option.some pack)
    (hval : PackLoader.validate_pack pack = [])
    (hdev : CMDB.get_device w.devices dh = Option.none) :
    PackRunner.run_pack w pn dh dry =
      ([], PackRunner.create_error_result pn dh ("Device not found in CMDB: " ++ dh)) := by
  unfold PackRunner.run_pack
  rw [hpk]
  simp only [hval, ne_eq, not_true_eq_false, if_false, hdev]

/-- Reduction of `run_pack` on the policy-violation path. -/
theorem run_pack_policy_violation {σ : Type} (w : World σ) (pn dh : String) (dry : Bool)
    (pack : Pack) (device : Device) (hpk : w.packs pn = Option.some pack)
    (hval : PackLoader.validate_pack pack = [])
    (hdev : CMDB.get_device w.devices dh = Option.some device)
    (hmode : pack.execution.mode = "execute") (hallow : device.allows_execution = false) :
    PackRunner.run_pack w pn dh dry =
      ([], PackRunner.create_error_result pn dh
        ("Device " ++ dh ++ " does not allow execution (missing \x27allow_execute\x27 tag)")) := by
  unfold PackRunner.run_pack
  rw [hpk]
  simp only [hval, ne_eq, not_true_eq_false, if_false, hdev]
  rw [if_pos ⟨hmode, hallow⟩]

/-- Reduction of `run_pack` past all gates on a non-dry run whose
command phase raises. -/
theorem run_pack_exec_error {σ : Type} (w : World σ) (pn dh : String)
    (pack : Pack) (device : Device) (tr : List Event) (e : String)
    (hpk : w.packs pn = Option.some pack)
    (hval : PackLoader.validate_pack pack = [])
    (hdev : CMDB.get_device w.devices dh = Option.some device)
    (hpol : ¬(pack.execution.mode = "execute" ∧ device.allows_execution = false))
    (he : PackRunner.execute_commands w.collab pack device = (tr, Except.error e)) :
    PackRunner.run_pack w pn dh false =
      (tr, PackRunner.create_error_result pn dh ("Execution error: " ++ e)) := by
  unfold PackRunner.run_pack
  rw [hpk]
  simp only [hval, ne_eq, not_true_eq_false, if_false, hdev, if_neg hpol,
    Bool.false_eq_true, he]

/-- Reduction of `run_pack` on the invalid-pack path. -/
theorem run_pack_invalid {σ : Type} (w : World σ) (pn dh : String) (dry : Bool)
    (pack : Pack) (hpk : w.packs pn = Option.some pack)
    (hval : PackLoader.validate_pack pack ≠ []) :
    PackRunner.run_pack w pn dh dry =
      ([], PackRunner.create_error_result pn dh
        ("Pack validation failed: "
          ++ String.intercalate ", " (PackLoader.validate_pack pack))) := by
  unfold PackRunner.run_pack
  rw [hpk]
  dsimp only
  rw [if_pos hval]

/-- Reduction of `run_pack` past all gates on a dry run: the command
phase is skipped with an empty result mapping and validation is
skipped with it. -/
theorem run_pack_dry_ok {σ : Type} (w : World σ) (pn dh : String)
    (pack : Pack) (device : Device) (hpk : w.packs pn = Option.some pack)
    (hval : PackLoader.validate_pack pack = [])
    (hdev : CMDB.get_device w.devices dh = Option.some device)
    (hpol : ¬(pack.execution.mode = "execute" ∧ device.allows_execution = false)) :
    PackRunner.run_pack w pn dh true =
      ([], { pack_name := pn, device_hostname := dh, success := true }) := by
  unfold PackRunner.run_pack
  rw [hpk]
  simp only [hval, ne_eq, not_true_eq_false, if_false, hdev, if_neg hpol]
  simp [PackRunner.run_validations]

/-- C2 as stated is false on the code: a dry run leaves the
command-result mapping empty, and `run_pack` evaluates validations
only when that mapping is non-empty, so a pack with one declared rule
yields zero verdicts — not one FAIL-by-absence verdict per rule. -/
theorem c2_counterexample :
    samplePack.validations.length = 1 ∧
    (PackRunner.run_pack sampleWorld "health_check" "core-sw-01" true).2.validation_results = []
  ∧ (PackRunner.run_pack sampleWorld "health_check" "core-sw-01" true).2.validations_failed = 0 := by
  decide

/-- C2 (amended): a dry run opens no connection and makes no
collaborator call at all, executes zero commands, leaves the
command-result mapping empty, and skips validation entirely — the
verdict sequence is empty regardless of how many rules the pack
declares, because validation is gated on a non-empty result mapping. -/
theorem c2_dry_run_no_connection {σ : Type} (w : World σ) (pn dh : String) :
    (PackRunner.run_pack w pn dh true).1 = []
  ∧ (PackRunner.run_pack w pn dh true).2.commands_executed = 0
  ∧ (PackRunner.run_pack w pn dh true).2.command_results = []
  ∧ (PackRunner.run_pack w pn dh true).2.validation_results = [] := by
  cases hpk : w.packs pn with
  | none =>
    rw [run_pack_pack_not_found w pn dh true hpk]
    exact ⟨rfl, rfl, rfl, rfl⟩
  | some pack =>
    by_cases hval : PackLoader.validate_pack pack = []
    · cases hdev : CMDB.get_device w.devices dh with
      | none =>
        rw [run_pack_device_not_found w pn dh true pack hpk hval hdev]
        exact ⟨rfl, rfl, rfl, rfl⟩
      | some device =>
        by_cases hpol : pack.execution.mode = "execute" ∧ device.allows_execution = false
        · rw [run_pack_policy_violation w pn dh true pack device hpk hval hdev hpol.1 hpol.2]
          exact ⟨rfl, rfl, rfl, rfl⟩
        · rw [run_pack_dry_ok w pn dh pack device hpk hval hdev hpol]
          exact ⟨rfl, rfl, rfl, rfl⟩
    · rw [run_pack_invalid w pn dh true pack hpk hval]
      exact ⟨rfl, rfl, rfl, rfl⟩

/-- C3 as stated is false on the code: `run_pack` wraps its whole body
in a blanket handler, so a missing pack (a `FileNotFoundError` from
the loader) and a missing device both produce a normal execution
record with `success = false` and the failure described in `error` —
nothing is raised to the caller, and a record is constructed. -/
theorem c3_counterexample :
    ((PackRunner.run_pack sampleWorld "ghost_pack" "core-sw-01" false).2.success = false
      ∧ (PackRunner.run_pack sampleWorld "ghost_pack" "core-sw-01" false).2.error =
          Option.some "Execution error: Pack not found: packs/ghost_pack.yml")
  ∧ ((PackRunner.run_pack sampleWorld "health_check" "no-such-device" false).2.success = false
      ∧ (PackRunner.run_pack sampleWorld "health_check" "no-such-device" false).2.error =
          Option.some "Device not found in CMDB: no-such-device") := by
  decide

/-- C3 (amended): the run entry point never raises for expected
failure modes — including a missing pack definition and a missing
device, which are not exceptions to this rule: `run_pack` is a total
function into execution records, and on those two paths it returns a
record with `success = false` and the typed failure text in `error`. -/
theorem c3_failures_in_record {σ : Type} (w : World σ) (pn dh : String) (dry : Bool) :
    (w.packs pn = Option.none →
      (PackRunner.run_pack w pn dh dry).2.success = false ∧
      (PackRunner.run_pack w pn dh dry).2.error =
        Option.some ("Execution error: Pack not found: " ++ w.packs_dir ++ "/" ++ pn ++ ".yml"))
  ∧ (∀ pack, w.packs pn = Option.some pack → PackLoader.validate_pack pack = [] →
      CMDB.get_device w.devices dh = Option.none →
      (PackRunner.run_pack w pn dh dry).2.success = false ∧
      (PackRunner.run_pack w pn dh dry).2.error =
        Option.some ("Device not found in CMDB: " ++ dh)) := by
  constructor
  · intro hpk
    rw [run_pack_pack_not_found w pn dh dry hpk]
    exact ⟨rfl, rfl⟩
  · intro pack hpk hval hdev
    rw [run_pack_device_not_found w pn dh dry pack hpk hval hdev]
    exact ⟨rfl, rfl⟩

/-- Witness for the amended C3 at the concrete world. -/
theorem c3_failures_in_record_witness :
    ((PackRunner.run_pack sampleWorld "ghost" "core-sw-01" true).2.success = false
      ∧ (PackRunner.run_pack sampleWorld "ghost" "core-sw-01" true).2.error =
          Option.some "Execution error: Pack not found: packs/ghost.yml")
  ∧ ((PackRunner.run_pack sampleWorld "health_check" "absent-host" true).2.success = false
      ∧ (PackRunner.run_pack sampleWorld "health_check" "absent-host" true).2.error =
          Option.some "Device not found in CMDB: absent-host") := by
  constructor
  · exact (c3_failures_in_record sampleWorld "ghost" "core-sw-01" true).1 (by decide)
  · exact (c3_failures_in_record sampleWorld "health_check" "absent-host" true).2
      samplePack (by decide) (by decide) (by decide)

/-- C7: a pack in `execute` mode run against a device lacking the
`allow_execute` tag terminates with the policy-violation error before
any collaborator call: the trace is empty, so in particular no
`connect` happens. -/
theorem c7_policy_gate_before_connect {σ : Type} (w : World σ) (pn dh : String) (dry : Bool)
    (pack : Pack) (device : Device)
    (hpk : w.packs pn = Option.some pack)
    (hval : PackLoader.validate_pack pack = [])
    (hdev : CMDB.get_device w.devices dh = Option.some device)
    (hmode : pack.execution.mode = "execute")
    (hallow : device.allows_execution = false) :
    (PackRunner.run_pack w pn dh dry).1 = []
  ∧ Event.connect ∉ (PackRunner.run_pack w pn dh dry).1
  ∧ (PackRunner.run_pack w pn dh dry).2.success = false
  ∧ (PackRunner.run_pack w pn dh dry).2.error =
      Option.some ("Device " ++ dh
        ++ " does not allow execution (missing \x27allow_execute\x27 tag)") := by
  rw [run_pack_policy_violation w pn dh dry pack device hpk hval hdev hmode hallow]
  exact ⟨rfl, by simp, rfl, rfl⟩

/-- Reduction of `run_pack` past all gates on a non-dry run whose
command phase succeeds. -/
theorem run_pack_exec_ok {σ : Type} (w : World σ) (pn dh : String)
    (pack : Pack) (device : Device) (tr : List Event) (rs : List (String × Parsed))
    (hpk : w.packs pn = Option.some pack)
    (hval : PackLoader.validate_pack pack = [])
    (hdev : CMDB.get_device w.devices dh = Option.some device)
    (hpol : ¬(pack.execution.mode = "execute" ∧ device.allows_execution = false))
    (ho : PackRunner.execute_commands w.collab pack device = (tr, Except.ok rs)) :
    PackRunner.run_pack w pn dh false =
      (tr,
        { pack_name := pn
          device_hostname := dh
          success := true
          commands_executed := rs.length
          validations_passed :=
            ((PackRunner.run_validations pack rs).filter (fun v => v.passed)).length
          validations_failed :=
            (PackRunner.run_validations pack rs).length -
              ((PackRunner.run_validations pack rs).filter (fun v => v.passed)).length
          command_results := rs
          validation_results := PackRunner.run_validations pack rs
          error := Option.none }) := by
  unfold PackRunner.run_pack
  rw [hpk]
  simp only [hval, ne_eq, not_true_eq_false, if_false, hdev, if_neg hpol,
    Bool.false_eq_true, ho]

/-- A prefix of commands whose steps all succeed contributes exactly
its execution events to the loop trace, after which the loop continues
on the remaining commands with some accumulated result mapping. -/
theorem execute_loop_ok_front {σ : Type} (C : Collaborators σ) (pack : Pack)
    (conn : Option σ) (pre rest : List PackCommand) :
    ∀ acc, (∀ cmd ∈ pre, ∃ p, PackRunner.cmd_step C pack conn cmd = Except.ok p) →
    ∃ acc2,
      PackRunner.execute_loop C pack conn (pre ++ rest) acc =
        ((pre.map fun k => Event.exec k.name)
            ++ (PackRunner.execute_loop C pack conn rest acc2).1,
          (PackRunner.execute_loop C pack conn rest acc2).2) := by
  induction pre with
  | nil =>
    intro acc _
    exact ⟨acc, by simp⟩
  | cons c cs ih =>
    intro acc hok
    obtain ⟨p, hp⟩ := hok c (by simp)
    obtain ⟨acc2, heq⟩ :=
      ih (PackRunner.dict_insert acc c.name p) (fun cmd hm => hok cmd (by simp [hm]))
    refine ⟨acc2, ?_⟩
    rw [List.cons_append]
    simp only [PackRunner.execute_loop, hp, heq]
    simp

/-- A command whose step raises produces exactly its own execution
event and aborts the loop with the exception. -/
theorem execute_loop_fail_head {σ : Type} (C : Collaborators σ) (pack : Pack)
    (conn : Option σ) (c : PackCommand) (post : List PackCommand)
    (acc : List (String × Parsed))
    (hc : ∀ p, PackRunner.cmd_step C pack conn c ≠ Except.ok p) :
    ∃ e, PackRunner.execute_loop C pack conn (c :: post) acc =
      ([Event.exec c.name], Except.error e) := by
  cases hstep : PackRunner.cmd_step C pack conn c with
  | ok p => exact absurd hstep (hc p)
  | error e =>
    refine ⟨e, ?_⟩
    simp only [PackRunner.execute_loop, hstep]

/-- C10: every record returned by `run_pack` satisfies the counting
invariants — passed plus failed verdicts equal the verdict-sequence
length, and the executed-command count equals the size of the
command-result mapping — and on every error path the mapping and the
verdict sequence are empty, `success` is false, and `error` is set. -/
theorem c10_record_invariants {σ : Type} (w : World σ) (pn dh : String) (dry : Bool) :
    ((PackRunner.run_pack w pn dh dry).2.validations_passed
        + (PackRunner.run_pack w pn dh dry).2.validations_failed
      = (PackRunner.run_pack w pn dh dry).2.validation_results.length)
  ∧ ((PackRunner.run_pack w pn dh dry).2.commands_executed
      = (PackRunner.run_pack w pn dh dry).2.command_results.length)
  ∧ ((PackRunner.run_pack w pn dh dry).2.success = false →
      (PackRunner.run_pack w pn dh dry).2.command_results = []
      ∧ (PackRunner.run_pack w pn dh dry).2.validation_results = []
      ∧ ((PackRunner.run_pack w pn dh dry).2.error).isSome = true) := by
  cases hpk : w.packs pn with
  | none =>
    rw [run_pack_pack_not_found w pn dh dry hpk]
    exact ⟨rfl, rfl, fun _ => ⟨rfl, rfl, rfl⟩⟩
  | some pack =>
    by_cases hval : PackLoader.validate_pack pack = []
    · cases hdev : CMDB.get_device w.devices dh with
      | none =>
        rw [run_pack_device_not_found w pn dh dry pack hpk hval hdev]
        exact ⟨rfl, rfl, fun _ => ⟨rfl, rfl, rfl⟩⟩
      | some device =>
        by_cases hpol : pack.execution.mode = "execute" ∧ device.allows_execution = false
        · rw [run_pack_policy_violation w pn dh dry pack device hpk hval hdev hpol.1 hpol.2]
          exact ⟨rfl, rfl, fun _ => ⟨rfl, rfl, rfl⟩⟩
        · cases dry with
          | true =>
            rw [run_pack_dry_ok w pn dh pack device hpk hval hdev hpol]
            exact ⟨rfl, rfl, fun h => Bool.noConfusion h⟩
          | false =>
            rcases he : PackRunner.execute_commands w.collab pack device with ⟨tr, res⟩
            cases res with
            | error e =>
              rw [run_pack_exec_error w pn dh pack device tr e hpk hval hdev hpol he]
              exact ⟨rfl, rfl, fun _ => ⟨rfl, rfl, rfl⟩⟩
            | ok rs =>
              rw [run_pack_exec_ok w pn dh pack device tr rs hpk hval hdev hpol he]
              refine ⟨?_, rfl, fun h => Bool.noConfusion h⟩
              exact Nat.add_sub_cancel'
                (List.length_filter_le _ (PackRunner.run_validations pack rs))
    · rw [run_pack_invalid w pn dh dry pack hpk hval]
      exact ⟨rfl, rfl, fun _ => ⟨rfl, rfl, rfl⟩⟩

/-- C6: when the step of command `c` raises after all commands of
`pre` succeeded, the trace of the run is exactly one `connect`, one
execution event per command of `pre`, the execution event of `c`, and
one final `disconnect` — so no command after `c` is ever executed and
the session is released exactly once — while the run fails with no
partial command results and no verdicts, and the failure is recorded
in `error`. -/
theorem c6_command_failure_aborts {σ : Type} (w : World σ) (pn dh : String)
    (pack : Pack) (device : Device) (pre post : List PackCommand) (c : PackCommand)
    (hpk : w.packs pn = Option.some pack)
    (hval : PackLoader.validate_pack pack = [])
    (hdev : CMDB.get_device w.devices dh = Option.some device)
    (hpol : ¬(pack.execution.mode = "execute" ∧ device.allows_execution = false))
    (hcmds : pack.commands = pre ++ c :: post)
    (hconn : (PackRunner.open_connection w.collab pack device).success = true)
    (hsome : (PackRunner.open_connection w.collab pack device).connection.isSome = true)
    (hpre : ∀ cmd ∈ pre, ∃ p,
      PackRunner.cmd_step w.collab pack
        (PackRunner.open_connection w.collab pack device).connection cmd = Except.ok p)
    (hc : ∀ p,
      PackRunner.cmd_step w.collab pack
        (PackRunner.open_connection w.collab pack device).connection c ≠ Except.ok p) :
    (PackRunner.run_pack w pn dh false).1 =
      Event.connect ::
        ((pre.map fun k => Event.exec k.name) ++ [Event.exec c.name, Event.disconnect])
  ∧ (PackRunner.run_pack w pn dh false).1.count Event.disconnect = 1
  ∧ (PackRunner.run_pack w pn dh false).2.success = false
  ∧ (PackRunner.run_pack w pn dh false).2.command_results = []
  ∧ (PackRunner.run_pack w pn dh false).2.validation_results = []
  ∧ ((PackRunner.run_pack w pn dh false).2.error).isSome = true := by
  obtain ⟨acc2, hloop⟩ := execute_loop_ok_front w.collab pack
    (PackRunner.open_connection w.collab pack device).connection pre (c :: post) [] hpre
  obtain ⟨e, hfail⟩ := execute_loop_fail_head w.collab pack
    (PackRunner.open_connection w.collab pack device).connection c post acc2 hc
  have hec : PackRunner.execute_commands w.collab pack device =
      (Event.connect ::
          ((pre.map fun k => Event.exec k.name) ++ [Event.exec c.name, Event.disconnect]),
        Except.error e) := by
    unfold PackRunner.execute_commands
    dsimp only
    rw [if_pos hconn, hcmds, hloop, hfail]
    simp [hsome]
  rw [run_pack_exec_error w pn dh pack device _ e hpk hval hdev hpol hec]
  refine ⟨rfl, ?_, rfl, rfl, rfl, rfl⟩
  have hzero : (pre.map fun k => Event.exec k.name).count Event.disconnect = 0 := by
    rw [List.count_eq_zero]
    intro hmem
    obtain ⟨k, _, heq⟩ := List.mem_map.mp hmem
    exact Event.noConfusion heq
  simp [List.count_cons, List.count_append, hzero]

/-- Witness for C6: in `worldFailSecond`, command 2 of 3 raises — the
trace stops at its execution event and closes the session once. -/
theorem c6_command_failure_aborts_witness :
    (PackRunner.run_pack worldFailSecond "triple" "core-sw-01" false).1 =
      Event.connect ::
        (([cmdOne].map fun k => Event.exec k.name)
          ++ [Event.exec cmdTwo.name, Event.disconnect])
  ∧ (PackRunner.run_pack worldFailSecond "triple" "core-sw-01" false).1.count
      Event.disconnect = 1
  ∧ (PackRunner.run_pack worldFailSecond "triple" "core-sw-01" false).2.success = false
  ∧ (PackRunner.run_pack worldFailSecond "triple" "core-sw-01" false).2.command_results = []
  ∧ (PackRunner.run_pack worldFailSecond "triple" "core-sw-01" false).2.validation_results = []
  ∧ ((PackRunner.run_pack worldFailSecond "triple" "core-sw-01" false).2.error).isSome
      = true := by
  refine c6_command_failure_aborts worldFailSecond "triple" "core-sw-01"
    packThreeCommands sampleDevice [cmdOne] [cmdThree] cmdTwo
    (by decide) (by decide) (by decide) (by decide) (by decide) rfl rfl ?_ ?_
  · intro cmd hm
    simp only [List.mem_singleton] at hm
    subst hm
    exact ⟨Parsed.raw "output", rfl⟩
  · intro p hcontra
    rw [show PackRunner.cmd_step worldFailSecond.collab packThreeCommands
        (PackRunner.open_connection worldFailSecond.collab packThreeCommands
          sampleDevice).connection cmdTwo
        = Except.error "transport failure on show b" from rfl] at hcontra
    exact Except.noConfusion hcontra

/-- Witness for C10's error-path clause at the missing-pack input. -/
theorem c10_record_invariants_witness :
    (PackRunner.run_pack sampleWorld "no_such_pack" "core-sw-01" false).2.command_results = []
  ∧ (PackRunner.run_pack sampleWorld "no_such_pack" "core-sw-01" false).2.validation_results = []
  ∧ ((PackRunner.run_pack sampleWorld "no_such_pack" "core-sw-01" false).2.error).isSome
      = true := by
  exact (c10_record_invariants sampleWorld "no_such_pack" "core-sw-01" false).2.2 (by decide)

/-- Witness for C7: `samplePackExecute` against the untagged
`sampleDevice`. -/
theorem c7_policy_gate_before_connect_witness :
    (PackRunner.run_pack sampleWorld "health_check_exec" "core-sw-01" false).1 = []
  ∧ Event.connect ∉ (PackRunner.run_pack sampleWorld "health_check_exec" "core-sw-01" false).1
  ∧ (PackRunner.run_pack sampleWorld "health_check_exec" "core-sw-01" false).2.success = false
  ∧ (PackRunner.run_pack sampleWorld "health_check_exec" "core-sw-01" false).2.error =
      Option.some
        "Device core-sw-01 does not allow execution (missing \x27allow_execute\x27 tag)" := by
  exact c7_policy_gate_before_connect sampleWorld "health_check_exec" "core-sw-01" false
    samplePackExecute sampleDevice (by decide) (by decide) (by decide) (by decide) (by decide)

end NetOpsForge
